import Mathlib

/-!
Shallow embedding of the token/object management core of the sc-hsm-embedded
PKCS#11 module (src/src/pkcs11/token.c), together with theorems checking the
natural-language specification against it.

Modelling conventions:
* C singly-linked object lists become Lean `List P11Object`, head of the Lean
  list = head of the C list; `addObjectToList` (from object.c, absent from
  src/) appends at the tail per the spec.
* `CK_ULONG` counters become `Nat`; the two `--` decrements in token.c are
  modelled with explicit wrap-around modulo 2^64 (`ulongDec`), since the code
  can decrement a counter that is 0.
* An output pointer parameter (`struct p11Object_t **object`) is modelled by
  passing the pointer's previous value in and returning its value after the
  call, so "the function does not write the pointer" is expressible.
* Attribute values are abstracted to `Nat` (only equality of values matters
  to the embedded functions).
-/

/-- PKCS#11 result and role constants used by token.c. -/
def CKR_OK : Nat := 0

/-- PKCS#11 general error code, used for list-removal failure. -/
def CKR_GENERAL_ERROR : Nat := 5

/-- PKCS#11 code returned by findMatchingTokenObject when nothing matches. -/
def CKR_ARGUMENTS_BAD : Nat := 7

/-- PKCS#11 code meaning a driver does not recognize the token. -/
def CKR_TOKEN_NOT_RECOGNIZED : Nat := 0xE1

/-- PKCS#11 security-officer role constant. -/
def CKU_SO : Nat := 0

/-- PKCS#11 normal-user role constant; token.c compares token->user to it. -/
def CKU_USER : Nat := 1

/-- PKCS#11 context-specific role constant. -/
def CKU_CONTEXT_SPECIFIC : Nat := 2

/-- Modulus of the C type CK_ULONG (64-bit unsigned). -/
def ULONG_MOD : Nat := 2 ^ 64

/-- Wrap-around decrement of a CK_ULONG counter (the C expression `n--`). -/
def ulongDec (n : Nat) : Nat := (n + (ULONG_MOD - 1)) % ULONG_MOD

/-- A PKCS#11 object as far as token.c observes it: its handle, its
attribute list (type/value pairs, values abstracted to Nat) and its dirty
flag.  The back pointer object->token is not needed by any claim and is
omitted to keep the structure non-recursive. -/
structure P11Object where
  handle : Nat
  attributes : List (Nat × Nat)
  dirtyFlag : Nat
  deriving Repr, DecidableEq

/-- A token as far as token.c observes it: authentication state `user`,
the handle allocator `freeObjectNumber`, the public and private object
lists with their counters, the owning slot's id and whether the driver
provides the optional freeToken teardown hook. -/
structure P11Token where
  user : Nat
  freeObjectNumber : Nat
  tokenObjList : List P11Object
  tokenPrivObjList : List P11Object
  numberOfTokenObjects : Nat
  numberOfPrivateTokenObjects : Nat
  slotId : Nat
  drvHasFreeToken : Bool
  deriving Repr, DecidableEq

/-- Modelled from the spec: `addObjectToList` of object.c (absent from src/)
appends the object at the tail of the list, preserving insertion order. -/
def addObjectToList (l : List P11Object) (o : P11Object) : List P11Object :=
  l ++ [o]

/-- Modelled from the spec: `removeObjectFromList` of object.c (absent from
src/) unlinks the first node carrying the handle and fails when the handle
is not present. -/
def removeObjectFromList : List P11Object → Nat → Option (List P11Object)
  | [], _ => none
  | o :: rest, h =>
    if o.handle = h then some rest
    else (removeObjectFromList rest h).map (o :: ·)

/-- Modelled from the spec: `removeAllObjectsFromList` of object.c (absent
from src/) drains the whole list. -/
def removeAllObjectsFromList (_l : List P11Object) : List P11Object := []

/-- Modelled from the spec: `isMatchingObject` of object.c (absent from
src/): an object matches a template iff it has every attribute listed in
the template with an equal value. -/
def isMatchingObject (o : P11Object) (template : List (Nat × Nat)) : Bool :=
  template.all fun a =>
    match o.attributes.find? (fun b => b.1 == a.1) with
    | some b => b.2 == a.2
    | none => false

/-- Embedding of `addObject` (token.c lines 84-103).  The C function mutates
the object through its pointer (handle assignment, dirty flag), so the
returned triple carries the return code, the updated token and the updated
object. -/
def addObject (t : P11Token) (o : P11Object) (publicObject : Bool) :
    Nat × P11Token × P11Object :=
  let o1 := if o.handle = 0 then { o with handle := t.freeObjectNumber } else o
  let fon := if o.handle = 0 then t.freeObjectNumber + 1 else t.freeObjectNumber
  let o2 := { o1 with dirtyFlag := 1 }
  if publicObject then
    (CKR_OK,
     { t with freeObjectNumber := fon,
              tokenObjList := addObjectToList t.tokenObjList o2,
              numberOfTokenObjects := t.numberOfTokenObjects + 1 },
     o2)
  else
    (CKR_OK,
     { t with freeObjectNumber := fon,
              tokenPrivObjList := addObjectToList t.tokenPrivObjList o2,
              numberOfPrivateTokenObjects := t.numberOfPrivateTokenObjects + 1 },
     o2)

/-- Embedding of the scan loop of `findObject` (token.c lines 125-135):
walks the list keeping the current position, returns the position and the
object on a hit, and (-1, NULL) on a miss (the pointer was set to NULL
before the loop). -/
def findObjectScan : List P11Object → Nat → Nat → Int × Option P11Object
  | [], _, _ => (-1, none)
  | o :: rest, h, pos =>
    if o.handle = h then ((pos : Int), some o)
    else findObjectScan rest h (pos + 1)

/-- Embedding of `findObject` (token.c lines 113-136).  `ptr` is the value
of the caller's `*object` before the call; the second component of the
result is its value after the call.  The authentication gate returns -1
without touching the pointer; past the gate the pointer is first set to
NULL and the chosen list is scanned. -/
def findObject (t : P11Token) (handle : Nat) (ptr : Option P11Object)
    (publicObject : Bool) : Int × Option P11Object :=
  if publicObject = false ∧ t.user ≠ CKU_USER then (-1, ptr)
  else
    let l := if publicObject then t.tokenObjList else t.tokenPrivObjList
    findObjectScan l handle 0

/-- Embedding of the two while loops of `findMatchingTokenObject`: return
the first object of the list matching the template. -/
def scanMatching : List P11Object → List (Nat × Nat) → Option P11Object
  | [], _ => none
  | o :: rest, template =>
    if isMatchingObject o template then some o else scanMatching rest template

/-- Embedding of `findMatchingTokenObject` (token.c lines 140-167): scans
the public list, then the private list (with no authentication gate), and
returns CKR_ARGUMENTS_BAD leaving the output pointer untouched when no
object matches. -/
def findMatchingTokenObject (t : P11Token) (template : List (Nat × Nat))
    (ptr : Option P11Object) : Nat × Option P11Object :=
  match scanMatching t.tokenObjList template with
  | some o => (CKR_OK, some o)
  | none =>
    match scanMatching t.tokenPrivObjList template with
    | some o => (CKR_OK, some o)
    | none => (CKR_ARGUMENTS_BAD, ptr)

/-- Embedding of `removeTokenObject` (token.c lines 180-197). -/
def removeTokenObject (t : P11Token) (handle : Nat) (publicObject : Bool) :
    Nat × P11Token :=
  if publicObject then
    match removeObjectFromList t.tokenObjList handle with
    | none => (CKR_GENERAL_ERROR, t)
    | some l =>
      (CKR_OK, { t with tokenObjList := l,
                        numberOfTokenObjects := ulongDec t.numberOfTokenObjects })
  else
    match removeObjectFromList t.tokenPrivObjList handle with
    | none => (CKR_GENERAL_ERROR, t)
    | some l =>
      (CKR_OK, { t with tokenPrivObjList := l,
                        numberOfPrivateTokenObjects :=
                          ulongDec t.numberOfPrivateTokenObjects })

/-- Embedding of `removePrivateObjects` (token.c lines 208-212). -/
def removePrivateObjects (t : P11Token) : P11Token :=
  { t with tokenPrivObjList := removeAllObjectsFromList t.tokenPrivObjList,
           numberOfPrivateTokenObjects := 0 }

/-- Embedding of `removePublicObjects` (token.c lines 223-227). -/
def removePublicObjects (t : P11Token) : P11Token :=
  { t with tokenObjList := removeAllObjectsFromList t.tokenObjList,
           numberOfTokenObjects := 0 }

/-- Unlinking by predecessor walk (token.c lines 249-255): removes the
first node carrying the handle.  Used by removeObjectLeavingAttributes in
the position > 0 case, where the first occurrence is not at the head. -/
def removeFirstByHandle : List P11Object → Nat → List P11Object
  | [], _ => []
  | o :: rest, h =>
    if o.handle = h then rest else o :: removeFirstByHandle rest h

/-- Embedding of `removeObjectLeavingAttributes` (token.c lines 234-272):
looks the handle up through findObject (inheriting its authentication
gate), unlinks by predecessor walk when the position is > 0, sets the whole
list head to NULL when the position is 0, and decrements
`numberOfTokenObjects` unconditionally - also when a private object was
removed. -/
def removeObjectLeavingAttributes (t : P11Token) (handle : Nat)
    (publicObject : Bool) : Int × P11Token :=
  let rc := (findObject t handle none publicObject).1
  if rc < 0 then (rc, t)
  else
    let l := if publicObject then t.tokenObjList else t.tokenPrivObjList
    let l2 := if rc > 0 then removeFirstByHandle l handle else []
    let t2 := if publicObject then { t with tokenObjList := l2 }
              else { t with tokenPrivObjList := l2 }
    ((CKR_OK : Nat),
     { t2 with numberOfTokenObjects := ulongDec t2.numberOfTokenObjects })

/-- A slot as far as logOut observes it: its token.  (slot->token is
always dereferenced by logOut, so the token is carried directly.) -/
structure P11Slot where
  slotToken : P11Token
  deriving Repr, DecidableEq

/-- Observable events of the logOut path, recording the order in which the
user field is written and the driver's logout operation is invoked; the
driver event records the value of token->user the driver observes at the
moment of the call. -/
inductive LogoutEvent where
  | setUser (v : Nat)
  | driverLogout (userSeen : Nat)
  deriving Repr, DecidableEq

/-- Modelled from the spec: the driver's logout operation (token-sc-hsm.c
and its peers are absent from src/).  Per the spec the logout path "purges
the private Object List (count reset, storage released)" after the core
has invalidated the user state; the card-side logout itself is abstracted
to a CKR_OK result.  The returned event records the user value the driver
sees when called. -/
def drvLogout (t : P11Token) : Nat × P11Token × List LogoutEvent :=
  (CKR_OK,
   { t with tokenPrivObjList := removeAllObjectsFromList t.tokenPrivObjList,
            numberOfPrivateTokenObjects := 0 },
   [LogoutEvent.driverLogout t.user])

/-- Embedding of `logOut` (token.c lines 335-340): first store 0xFF into
slot->token->user, then delegate to the driver's logout operation and
return its result. -/
def logOut (slot : P11Slot) : Nat × P11Slot × List LogoutEvent :=
  let t1 := { slot.slotToken with user := 0xFF }
  let r := drvLogout t1
  (r.1, { slot with slotToken := r.2.1 },
   LogoutEvent.setUser 0xFF :: r.2.2)

/-- A token driver as newToken observes it: the ATR-acceptance predicate
and the construct operation.  Construction is modelled as a function of the
ATR returning the CKR code the driver returns and the token it writes (if
any); all card state a real driver consults is folded into the driver
value, over which the theorems quantify. -/
structure P11TokenDriver where
  isCandidate : List Nat → Bool
  construct : List Nat → Nat × Option P11Token

/-- Embedding of `newToken` (token.c lines 395-416), instrumented with the
list of drivers whose construct operation the loop actually invokes, in
invocation order.  The loop walks the driver table in registration order;
for an accepting driver, CKR_OK returns the constructed token at once, a
CKR_TOKEN_NOT_RECOGNIZED result moves on to the next driver, any other
error aborts with that error; an exhausted table yields
CKR_TOKEN_NOT_RECOGNIZED. -/
def newToken (drivers : List P11TokenDriver) (atr : List Nat) :
    (Nat × Option P11Token) × List P11TokenDriver :=
  match drivers with
  | [] => ((CKR_TOKEN_NOT_RECOGNIZED, none), [])
  | d :: rest =>
    if d.isCandidate atr then
      let rc := (d.construct atr).1
      if rc = CKR_OK then ((rc, (d.construct atr).2), [d])
      else if rc ≠ CKR_TOKEN_NOT_RECOGNIZED then ((rc, (d.construct atr).2), [d])
      else
        let r := newToken rest atr
        (r.1, d :: r.2)
    else newToken rest atr

/-- Observable events of the freeToken path, in the order token.c performs
them. -/
inductive FreeEvent where
  | closeSessionsForSlot (slotId : Nat)
  | driverFreeToken
  | purgePrivateObjects
  | purgePublicObjects
  | releaseTokenStorage
  deriving Repr, DecidableEq

/-- Embedding of `freeToken` (token.c lines 425-437) as an event trace plus
the token state just before its storage is released.  A NULL token input
produces no events; otherwise the sessions of the token's slot are closed,
the driver's optional teardown hook runs if present, then the private and
the public lists are purged and the storage released. -/
def freeToken (token : Option P11Token) : List FreeEvent × Option P11Token :=
  match token with
  | none => ([], none)
  | some t =>
    let purged := removePublicObjects (removePrivateObjects t)
    ([FreeEvent.closeSessionsForSlot t.slotId]
      ++ (if t.drvHasFreeToken then [FreeEvent.driverFreeToken] else [])
      ++ [FreeEvent.purgePrivateObjects, FreeEvent.purgePublicObjects,
          FreeEvent.releaseTokenStorage],
     some purged)

/-- Slot topology as getBaseToken observes it: which slot (by id) is the
primary of a virtual slot, and which token a slot owns.  Modelled from the
spec for the parts outside token.c: slot objects themselves live in the
slot manager, absent from src/. -/
structure SlotEnv where
  primaryOf : Nat → Option Nat
  tokenOfSlot : Nat → P11Token

/-- Embedding of `getBaseToken` (token.c lines 447-452): a token in a slot
with no primarySlot is returned unchanged, otherwise the token of the
primary slot is returned (one dereference). -/
def getBaseToken (env : SlotEnv) (t : P11Token) : P11Token :=
  match env.primaryOf t.slotId with
  | none => t
  | some p => env.tokenOfSlot p

/-- Follow primarySlot references for at most `fuel` steps, stopping at a
slot whose primarySlot is null - the claim's "physical base slot". -/
def followPrimary (env : SlotEnv) : Nat → Nat → Nat
  | 0, s => s
  | fuel + 1, s =>
    match env.primaryOf s with
    | none => s
    | some p => followPrimary env fuel p

/-- One step of a client call sequence against one token: adding a fresh
object (entering with handle 0) to the public or private list, or removing
an object by handle. -/
inductive TokOp where
  | addNew (attrs : List (Nat × Nat)) (pub : Bool)
  | removeTok (h : Nat) (pub : Bool)
  deriving Repr, DecidableEq

/-- A freshly created object: no handle yet (handle 0). -/
def newObj (attrs : List (Nat × Nat)) : P11Object :=
  { handle := 0, attributes := attrs, dirtyFlag := 0 }

/-- Run a sequence of add/remove operations against a token, collecting the
handle each addObject call stores into its object (the caller-visible
assigned handle). -/
def runOps (t : P11Token) : List TokOp → P11Token × List Nat
  | [] => (t, [])
  | TokOp.addNew attrs pub :: rest =>
    let r := addObject t (newObj attrs) pub
    let rr := runOps r.2.1 rest
    (rr.1, r.2.2.handle :: rr.2)
  | TokOp.removeTok h pub :: rest =>
    runOps (removeTokenObject t h pub).2 rest

/-- Count of add operations in a call sequence. -/
def TokOp.isAdd : TokOp → Bool
  | TokOp.addNew _ _ => true
  | TokOp.removeTok _ _ => false

section Lemmas

lemma scanMatching_append (l1 l2 : List P11Object) (template : List (Nat × Nat)) :
    scanMatching (l1 ++ l2) template =
      (scanMatching l1 template).orElse fun _ => scanMatching l2 template := by
  induction l1 with
  | nil => simp [scanMatching]
  | cons o rest ih =>
    by_cases h : isMatchingObject o template = true
    · simp [scanMatching, h]
    · simp only [List.cons_append, scanMatching, h, if_neg, Bool.not_eq_true] at *
      simpa [h] using ih

lemma scanMatching_mem {l : List P11Object} {template : List (Nat × Nat)}
    {o : P11Object} (h : scanMatching l template = some o) : o ∈ l := by
  induction l with
  | nil => simp [scanMatching] at h
  | cons p rest ih =>
    by_cases hp : isMatchingObject p template = true
    · simp [scanMatching, hp] at h
      simp [h]
    · simp [scanMatching, hp] at h
      exact List.mem_cons_of_mem _ (ih h)

lemma findObjectScan_miss {l : List P11Object} {h : Nat}
    (hmem : h ∉ l.map P11Object.handle) :
    ∀ p, findObjectScan l h p = (-1, none) := by
  induction l with
  | nil => intro p; rfl
  | cons o rest ih =>
    intro p
    simp only [List.map_cons, List.mem_cons] at hmem
    push_neg at hmem
    have ho : ¬ o.handle = h := fun hh => hmem.1 hh.symm
    rw [findObjectScan, if_neg ho]
    exact ih hmem.2 (p + 1)

lemma findObjectScan_found {l : List P11Object} {h : Nat}
    (hmem : h ∈ l.map P11Object.handle) :
    ∀ p, ∃ (n : Nat) (o : P11Object),
      findObjectScan l h p = ((n : Int), some o) ∧ p ≤ n ∧ o.handle = h := by
  induction l with
  | nil => simp at hmem
  | cons o rest ih =>
    intro p
    by_cases hh : o.handle = h
    · exact ⟨p, o, by simp [findObjectScan, hh], le_refl p, hh⟩
    · simp only [List.map_cons, List.mem_cons] at hmem
      rcases hmem with hmem | hmem
      · exact absurd hmem.symm hh
      · obtain ⟨n, o', heq, hle, ho'⟩ := ih hmem (p + 1)
        exact ⟨n, o', by simp [findObjectScan, hh, heq], by omega, ho'⟩

lemma removeFirstByHandle_no_handle {l : List P11Object} {h : Nat}
    (hnd : (l.map P11Object.handle).Nodup) :
    ∀ o ∈ removeFirstByHandle l h, o.handle ≠ h := by
  induction l with
  | nil => simp [removeFirstByHandle]
  | cons p rest ih =>
    simp only [List.map_cons, List.nodup_cons] at hnd
    by_cases hp : p.handle = h
    · intro o ho
      rw [removeFirstByHandle, if_pos hp] at ho
      intro hoh
      have hm : o.handle ∈ List.map P11Object.handle rest :=
        List.mem_map_of_mem _ ho
      rw [hoh, ← hp] at hm
      exact hnd.1 hm
    · intro o ho
      rw [removeFirstByHandle, if_neg hp] at ho
      rcases List.mem_cons.mp ho with rfl | ho
      · exact hp
      · exact ih hnd.2 o ho

end Lemmas

/-- C7: addObject always returns CKR_OK; it assigns a fresh handle from the
token's allocator exactly when the object enters with no handle (handle 0,
with the allocator advanced only in that case), appends the object at the
tail of the list selected by the visibility flag, increments the count of
that visibility class only, leaves the other list and count unchanged, and
sets the object's dirty flag. -/
theorem addObject_spec (t : P11Token) (o : P11Object) (publicObject : Bool) :
    (addObject t o publicObject).1 = CKR_OK ∧
    (addObject t o publicObject).2.2.handle =
      (if o.handle = 0 then t.freeObjectNumber else o.handle) ∧
    (addObject t o publicObject).2.2.dirtyFlag = 1 ∧
    (addObject t o publicObject).2.2.attributes = o.attributes ∧
    (addObject t o publicObject).2.1.freeObjectNumber =
      (if o.handle = 0 then t.freeObjectNumber + 1 else t.freeObjectNumber) ∧
    (addObject t o publicObject).2.1.tokenObjList =
      (if publicObject then t.tokenObjList ++ [(addObject t o publicObject).2.2]
       else t.tokenObjList) ∧
    (addObject t o publicObject).2.1.tokenPrivObjList =
      (if publicObject then t.tokenPrivObjList
       else t.tokenPrivObjList ++ [(addObject t o publicObject).2.2]) ∧
    (addObject t o publicObject).2.1.numberOfTokenObjects =
      (if publicObject then t.numberOfTokenObjects + 1
       else t.numberOfTokenObjects) ∧
    (addObject t o publicObject).2.1.numberOfPrivateTokenObjects =
      (if publicObject then t.numberOfPrivateTokenObjects
       else t.numberOfPrivateTokenObjects + 1) ∧
    (addObject t o publicObject).2.1.user = t.user := by
  cases publicObject <;> by_cases h0 : o.handle = 0 <;>
    simp [addObject, addObjectToList, h0]

/-- C8: findMatchingTokenObject is the first-match scan of the public list
followed by the private list (their concatenation, in list order) under the
template-matching predicate, and when nothing matches it returns
CKR_ARGUMENTS_BAD - the generic bad-arguments code, distinct from CKR_OK
and from the not-found-style detection code - leaving the output pointer
untouched. -/
theorem findMatchingTokenObject_spec (t : P11Token)
    (template : List (Nat × Nat)) (ptr : Option P11Object) :
    findMatchingTokenObject t template ptr =
      (match scanMatching (t.tokenObjList ++ t.tokenPrivObjList) template with
       | some o => (CKR_OK, some o)
       | none => (CKR_ARGUMENTS_BAD, ptr)) ∧
    CKR_ARGUMENTS_BAD ≠ CKR_OK ∧
    CKR_ARGUMENTS_BAD ≠ CKR_TOKEN_NOT_RECOGNIZED := by
  refine ⟨?_, by decide, by decide⟩
  rw [scanMatching_append]
  unfold findMatchingTokenObject
  cases hpub : scanMatching t.tokenObjList template <;>
    cases hpriv : scanMatching t.tokenPrivObjList template <;>
      simp [Option.orElse]

/-- C10: when the private-list gate rejects (user not the authenticated
normal user), findObject returns -1 leaving the caller's output pointer
with its prior value; once the gate is passed the pointer is initialized
to NULL, so a private-list scan miss returns -1 with the pointer NULL. -/
theorem findObject_gate_pointer (t : P11Token) (handle : Nat)
    (ptr : Option P11Object) :
    (t.user ≠ CKU_USER → findObject t handle ptr false = (-1, ptr)) ∧
    (t.user = CKU_USER → handle ∉ t.tokenPrivObjList.map P11Object.handle →
      findObject t handle ptr false = (-1, none)) := by
  constructor
  · intro hu
    simp [findObject, hu]
  · intro hu hmem
    simp only [findObject, hu, ne_eq, not_true_eq_false, and_false, if_false,
      Bool.false_eq_true, if_neg]
    exact findObjectScan_miss hmem 0

/-- C10 witness: concrete instances of both branches of
findObject_gate_pointer. -/
theorem findObject_gate_pointer_witness :
    findObject ⟨0xFF, 5, [], [⟨3, [], 0⟩], 0, 1, 9, false⟩ 3
        (some ⟨7, [], 0⟩) false = (-1, some ⟨7, [], 0⟩) ∧
    findObject ⟨1, 5, [], [⟨3, [], 0⟩], 0, 1, 9, false⟩ 4
        (some ⟨7, [], 0⟩) false = (-1, none) :=
  ⟨(findObject_gate_pointer ⟨0xFF, 5, [], [⟨3, [], 0⟩], 0, 1, 9, false⟩ 3
      (some ⟨7, [], 0⟩)).1 (by decide),
   (findObject_gate_pointer ⟨1, 5, [], [⟨3, [], 0⟩], 0, 1, 9, false⟩ 4
      (some ⟨7, [], 0⟩)).2 (by decide) (by decide)⟩

/-- A private object and an unauthenticated token holding it, used to
refute the claim that every private-list lookup is authentication-gated. -/
def cexPrivObj : P11Object := ⟨1, [], 0⟩

/-- Token whose user field is the logged-out sentinel 0xFF while a private
object is still present in its private list. -/
def cexToken : P11Token :=
  { user := 0xFF, freeObjectNumber := 2, tokenObjList := [],
    tokenPrivObjList := [cexPrivObj], numberOfTokenObjects := 0,
    numberOfPrivateTokenObjects := 1, slotId := 0, drvHasFreeToken := false }

/-- C1 counterexample: on a token whose user is not the authenticated
normal user but whose private list still holds an object, the private-list
phase of findMatchingTokenObject succeeds and returns that private object
(the function has no authentication gate), refuting the claim that every
enumeration over the private list fails or returns no object. -/
theorem private_scan_unauthenticated_cex :
    cexToken.user ≠ CKU_USER ∧
    cexToken.tokenPrivObjList = [cexPrivObj] ∧
    findMatchingTokenObject cexToken [] none = (CKR_OK, some cexPrivObj) := by
  decide

/-- C1 amended: findObject with publicObject false does fail for every
token whose user is not the authenticated normal user; findMatchingTokenObject
however has no authentication gate, and returns no private object only
because the private list is empty in logged-out states - whenever the
private list is empty, any object it returns (with a NULL-initialized
output pointer) comes from the public list. -/
theorem private_visibility_amended :
    (∀ (t : P11Token) (handle : Nat) (ptr : Option P11Object),
      t.user ≠ CKU_USER → findObject t handle ptr false = (-1, ptr)) ∧
    (∀ (t : P11Token) (template : List (Nat × Nat)) (o : P11Object),
      t.tokenPrivObjList = [] →
      (findMatchingTokenObject t template none).2 = some o →
      o ∈ t.tokenObjList) := by
  constructor
  · intro t handle ptr hu
    simp [findObject, hu]
  · intro t template o hpriv hfind
    unfold findMatchingTokenObject at hfind
    rw [hpriv] at hfind
    cases hpub : scanMatching t.tokenObjList template with
    | some o' =>
      rw [hpub] at hfind
      simp at hfind
      exact hfind ▸ scanMatching_mem hpub
    | none =>
      rw [hpub] at hfind
      simp [scanMatching] at hfind

/-- C1 amended witness: both amended branches at concrete inputs - the
gate of findObject on an unauthenticated token, and a public object being
the one returned when the private list is empty. -/
theorem private_visibility_amended_witness :
    findObject ⟨0xFF, 2, [], [⟨1, [], 0⟩], 0, 1, 0, false⟩ 1 none false =
      (-1, none) ∧
    (⟨4, [], 0⟩ : P11Object) ∈
      (⟨0xFF, 5, [⟨4, [], 0⟩], [], 1, 0, 0, false⟩ : P11Token).tokenObjList :=
  ⟨private_visibility_amended.1 ⟨0xFF, 2, [], [⟨1, [], 0⟩], 0, 1, 0, false⟩
      1 none (by decide),
   private_visibility_amended.2 ⟨0xFF, 5, [⟨4, [], 0⟩], [], 1, 0, 0, false⟩
      [] ⟨4, [], 0⟩ rfl rfl⟩

/-- C2: logOut first writes the sentinel 0xFF - distinct from every
legitimate role value (CKU_SO, CKU_USER, CKU_CONTEXT_SPECIFIC) - into the
token's user field, and only then invokes the driver's logout operation
(which observes user already at 0xFF); the logout path purges the private
object list, so after logOut the private object count is 0, the private
list is empty, and findObject on the private list fails for every handle
without touching the caller's pointer. -/
theorem logOut_spec (slot : P11Slot) :
    (logOut slot).2.2 =
      [LogoutEvent.setUser 0xFF, LogoutEvent.driverLogout 0xFF] ∧
    (logOut slot).2.1.slotToken.user = 0xFF ∧
    (0xFF : Nat) ≠ CKU_SO ∧ (0xFF : Nat) ≠ CKU_USER ∧
    (0xFF : Nat) ≠ CKU_CONTEXT_SPECIFIC ∧
    (logOut slot).2.1.slotToken.numberOfPrivateTokenObjects = 0 ∧
    (logOut slot).2.1.slotToken.tokenPrivObjList = [] ∧
    ∀ (handle : Nat) (ptr : Option P11Object),
      findObject (logOut slot).2.1.slotToken handle ptr false = (-1, ptr) := by
  refine ⟨rfl, rfl, by decide, by decide, by decide, rfl, rfl, ?_⟩
  intro handle ptr
  simp [logOut, drvLogout, findObject, CKU_USER]

/-- C5: freeToken on a non-null token emits exactly, in order: close all
sessions of the token's slot, the driver teardown hook (present iff the
driver provides one), purge of the private list, purge of the public list,
release of the token's storage; the session closing happens exactly once,
the state before release has both lists empty with both counts 0 (also
when the lists were already empty, without error), and a NULL token does
nothing. -/
theorem freeToken_spec (t : P11Token) :
    (freeToken (some t)).1 =
      (if t.drvHasFreeToken then
        [FreeEvent.closeSessionsForSlot t.slotId, FreeEvent.driverFreeToken,
         FreeEvent.purgePrivateObjects, FreeEvent.purgePublicObjects,
         FreeEvent.releaseTokenStorage]
       else
        [FreeEvent.closeSessionsForSlot t.slotId,
         FreeEvent.purgePrivateObjects, FreeEvent.purgePublicObjects,
         FreeEvent.releaseTokenStorage]) ∧
    (freeToken (some t)).1.count (FreeEvent.closeSessionsForSlot t.slotId)
      = 1 ∧
    (freeToken (some t)).2 =
      some { t with tokenObjList := [], tokenPrivObjList := [],
                    numberOfTokenObjects := 0,
                    numberOfPrivateTokenObjects := 0 } ∧
    freeToken none = ([], none) := by
  refine ⟨?_, ?_, rfl, rfl⟩
  · cases h : t.drvHasFreeToken <;> simp [freeToken, h]
  · cases h : t.drvHasFreeToken <;>
      simp [freeToken, h, List.count_cons, List.count_nil, beq_iff_eq]

/-- Follow primarySlot references from a slot whose primarySlot is null:
the walk stays put. -/
lemma followPrimary_of_none {env : SlotEnv} {s : Nat}
    (h : env.primaryOf s = none) : ∀ fuel, followPrimary env fuel s = s := by
  intro fuel
  cases fuel with
  | zero => rfl
  | succ k => simp [followPrimary, h]

/-- C9: under the spec's slot topology - every primarySlot reference of a
virtual slot points at a physical slot, one whose own primarySlot is null -
getBaseToken returns the token of the slot reached by following
primarySlot references until a slot with no primarySlot (with any fuel
bound of at least one step), the reached slot is indeed physical, and a
token whose slot has no primarySlot is returned unchanged. -/
theorem getBaseToken_spec (env : SlotEnv) (t : P11Token)
    (hcoh : env.tokenOfSlot t.slotId = t)
    (hphys : ∀ s p, env.primaryOf s = some p → env.primaryOf p = none)
    (fuel : Nat) (hfuel : 1 ≤ fuel) :
    getBaseToken env t = env.tokenOfSlot (followPrimary env fuel t.slotId) ∧
    env.primaryOf (followPrimary env fuel t.slotId) = none ∧
    (env.primaryOf t.slotId = none → getBaseToken env t = t) := by
  cases hp : env.primaryOf t.slotId with
  | none =>
    rw [followPrimary_of_none hp]
    exact ⟨by simp [getBaseToken, hp, hcoh], hp,
           fun _ => by simp [getBaseToken, hp]⟩
  | some p =>
    obtain ⟨k, rfl⟩ : ∃ k, fuel = k + 1 := ⟨fuel - 1, by omega⟩
    have hpn : env.primaryOf p = none := hphys _ _ hp
    have hf : followPrimary env (k + 1) t.slotId = p := by
      simp [followPrimary, hp, followPrimary_of_none hpn]
    rw [hf]
    exact ⟨by simp [getBaseToken, hp], hpn, fun hc => absurd hc (by simp)⟩

/-- Concrete slot topology for the C9 witness: slot 1 is virtual with
primary slot 0, every other slot is physical; every slot owns a token
carrying its slot id. -/
def envW : SlotEnv :=
  { primaryOf := fun s => if s = 1 then some 0 else none,
    tokenOfSlot := fun s => ⟨0xFF, 1, [], [], 0, 0, s, false⟩ }

/-- C9 witness: getBaseToken_spec applied to the virtual slot 1 of envW
with fuel 1. -/
theorem getBaseToken_spec_witness :
    getBaseToken envW (envW.tokenOfSlot 1) =
      envW.tokenOfSlot (followPrimary envW 1 (envW.tokenOfSlot 1).slotId) ∧
    envW.primaryOf (followPrimary envW 1 (envW.tokenOfSlot 1).slotId)
      = none := by
  have hphys : ∀ s p, envW.primaryOf s = some p → envW.primaryOf p = none := by
    intro s p hp
    by_cases hs : s = 1
    · subst hs
      simp [envW] at hp
      simp [envW, ← hp]
    · simp [envW, hs] at hp
  have h := getBaseToken_spec envW (envW.tokenOfSlot 1) rfl hphys 1
    (by decide)
  exact ⟨h.1, h.2.1⟩

/-- Every driver whose construct operation the detection loop invokes
accepted the ATR. -/
lemma newToken_trace_accepts (atr : List Nat) :
    ∀ (drivers : List P11TokenDriver) (e : P11TokenDriver),
      e ∈ (newToken drivers atr).2 → e.isCandidate atr = true := by
  intro drivers
  induction drivers with
  | nil => intro e he; simp [newToken] at he
  | cons d rest ih =>
    intro e he
    by_cases hc : d.isCandidate atr
    · by_cases h1 : (d.construct atr).1 = CKR_OK
      · simp [newToken, hc, h1] at he
        rw [he]; exact hc
      · by_cases h2 : (d.construct atr).1 = CKR_TOKEN_NOT_RECOGNIZED
        · have hne : ¬ (CKR_TOKEN_NOT_RECOGNIZED = CKR_OK) := by decide
          have he' : e ∈ d :: (newToken rest atr).2 := by
            simpa [newToken, hc, h1, h2, hne] using he
          rcases List.mem_cons.mp he' with rfl | hm
          · exact hc
          · exact ih e hm
        · simp [newToken, hc, h1, h2] at he
          rw [he]; exact hc
    · simp only [newToken, hc, Bool.false_eq_true, if_false] at he
      exact ih e he

/-- C3: the detection loop over the driver table.  An empty table yields
CKR_TOKEN_NOT_RECOGNIZED; a driver whose predicate rejects the ATR is
skipped; an accepting driver whose construct returns CKR_OK ends detection
with that token and its construct is the only one invoked - later drivers
are never consulted, whatever they are; a CKR_TOKEN_NOT_RECOGNIZED
construct result continues with the remaining drivers; any other construct
error aborts detection with that error; and only accepting drivers ever
have their construct invoked. -/
theorem newToken_detection (atr : List Nat) (d : P11TokenDriver)
    (rest : List P11TokenDriver) :
    newToken [] atr = ((CKR_TOKEN_NOT_RECOGNIZED, none), []) ∧
    (d.isCandidate atr = false →
      newToken (d :: rest) atr = newToken rest atr) ∧
    (d.isCandidate atr = true → (d.construct atr).1 = CKR_OK →
      newToken (d :: rest) atr = ((CKR_OK, (d.construct atr).2), [d])) ∧
    (d.isCandidate atr = true →
      (d.construct atr).1 = CKR_TOKEN_NOT_RECOGNIZED →
      newToken (d :: rest) atr =
        ((newToken rest atr).1, d :: (newToken rest atr).2)) ∧
    (d.isCandidate atr = true → (d.construct atr).1 ≠ CKR_OK →
      (d.construct atr).1 ≠ CKR_TOKEN_NOT_RECOGNIZED →
      newToken (d :: rest) atr =
        (((d.construct atr).1, (d.construct atr).2), [d])) ∧
    (∀ (drivers : List P11TokenDriver) (e : P11TokenDriver),
      e ∈ (newToken drivers atr).2 → e.isCandidate atr = true) := by
  refine ⟨rfl, ?_, ?_, ?_, ?_, newToken_trace_accepts atr⟩
  · intro hc
    simp [newToken, hc]
  · intro hc h1
    simp [newToken, hc, h1]
  · intro hc h2
    have h1 : (d.construct atr).1 ≠ CKR_OK := by rw [h2]; decide
    have hne : ¬ (CKR_TOKEN_NOT_RECOGNIZED = CKR_OK) := by decide
    simp [newToken, hc, h1, h2, hne]
  · intro hc h1 h2
    simp [newToken, hc, h1, h2]

/-- Token constructed by the C3 witness driver. -/
def tokW : P11Token := ⟨0xFF, 1, [], [], 0, 0, 0, false⟩

/-- C3 witness driver A: accepts every ATR and constructs tokW. -/
def drvA : P11TokenDriver := ⟨fun _ => true, fun _ => (CKR_OK, some tokW)⟩

/-- C3 witness driver B: accepts every ATR; its construct would fail. -/
def drvB : P11TokenDriver :=
  ⟨fun _ => true, fun _ => (CKR_GENERAL_ERROR, none)⟩

/-- C3 witness: with drvA registered before drvB and both accepting the
ATR, detection returns drvA's token and invokes only drvA's construct. -/
theorem newToken_detection_witness :
    newToken [drvA, drvB] [0x3B] = ((CKR_OK, some tokW), [drvA]) :=
  (newToken_detection [0x3B] drvA [drvB]).2.2.1 rfl rfl

/-- Fresh objects get the current allocator value as handle and advance
the allocator by one. -/
lemma addObject_newObj (t : P11Token) (attrs : List (Nat × Nat))
    (pub : Bool) :
    (addObject t (newObj attrs) pub).2.2.handle = t.freeObjectNumber ∧
    (addObject t (newObj attrs) pub).2.1.freeObjectNumber =
      t.freeObjectNumber + 1 := by
  cases pub <;> simp [addObject, newObj]

/-- Removing an object never touches the handle allocator. -/
lemma removeTokenObject_freeObjectNumber (t : P11Token) (h : Nat)
    (pub : Bool) :
    (removeTokenObject t h pub).2.freeObjectNumber = t.freeObjectNumber := by
  unfold removeTokenObject
  split <;> split <;> rfl

/-- The handles assigned over any add/remove call sequence are exactly the
consecutive allocator values starting at the token's freeObjectNumber, one
per add operation. -/
lemma runOps_handles (ops : List TokOp) :
    ∀ t : P11Token,
      (runOps t ops).2 =
        List.range' t.freeObjectNumber (ops.countP TokOp.isAdd) := by
  induction ops with
  | nil => intro t; simp [runOps]
  | cons op rest ih =>
    intro t
    cases op with
    | addNew attrs pub =>
      have h1 := addObject_newObj t attrs pub
      simp only [runOps, List.countP_cons, TokOp.isAdd, if_pos, ih, h1.1, h1.2]
      rw [List.range'_succ]
    | removeTok h pub =>
      simp only [runOps, List.countP_cons, TokOp.isAdd, if_neg, ih,
        removeTokenObject_freeObjectNumber]
      simp

/-- C4: over every sequence of addObject and removeTokenObject calls in
which each added object enters with no handle, the assigned handles are
the consecutive allocator values - strictly increasing, hence no two
objects ever receive the same handle, and a handle is never reused after
its object is removed; in particular two adds on an empty token yield h
and h+1, and after removing h a third add yields h+2. -/
theorem addObject_handle_uniqueness (t : P11Token) (ops : List TokOp) :
    (runOps t ops).2 =
      List.range' t.freeObjectNumber (ops.countP TokOp.isAdd) ∧
    List.Pairwise (· < ·) (runOps t ops).2 ∧
    (runOps t ops).2.Nodup ∧
    ∀ h : Nat,
      (runOps ⟨CKU_USER, h, [], [], 0, 0, 0, false⟩
        [TokOp.addNew [] true, TokOp.addNew [] true,
         TokOp.removeTok h true, TokOp.addNew [] true]).2
        = [h, h + 1, h + 2] := by
  have heq := runOps_handles ops t
  have hpair : List.Pairwise (· < ·) (runOps t ops).2 := by
    rw [heq]; exact List.pairwise_lt_range' _ _
  refine ⟨heq, hpair, hpair.imp Nat.ne_of_lt, ?_⟩
  intro h
  rw [runOps_handles]
  rfl

/-- When findObject succeeds at position n, removeObjectLeavingAttributes
returns CKR_OK, replaces the addressed list (emptying it when the hit was
at the head, unlinking the first node with the handle otherwise) and
decrements numberOfTokenObjects - regardless of the visibility class. -/
lemma removeObjectLeavingAttributes_found {t : P11Token} {h : Nat}
    {pub : Bool} {n : Nat} {o : P11Object}
    (hf : findObject t h none pub = ((n : Int), some o)) :
    removeObjectLeavingAttributes t h pub =
      ((CKR_OK : Int),
       let l := if pub then t.tokenObjList else t.tokenPrivObjList
       let l2 := if 0 < n then removeFirstByHandle l h else []
       let t2 := if pub then { t with tokenObjList := l2 }
                 else { t with tokenPrivObjList := l2 }
       { t2 with numberOfTokenObjects := ulongDec t2.numberOfTokenObjects }) := by
  simp only [removeObjectLeavingAttributes, hf]
  rw [if_neg (by omega : ¬ ((n : Int) < 0))]
  simp [gt_iff_lt, Int.natCast_pos, CKR_OK]

/-- C6: whenever removeObjectLeavingAttributes actually removes an object -
the handle is present in the addressed list (with per-list handle
uniqueness) and, for a private removal, the user is authenticated so that
the findObject gate passes - it returns CKR_OK, decrements only the public
object count numberOfTokenObjects (with CK_ULONG wrap-around semantics),
leaves numberOfPrivateTokenObjects unchanged even when the removed object
was private, and the removed handle no longer occurs in the addressed
list. -/
theorem removeObjectLeavingAttributes_counts (t : P11Token) (h : Nat)
    (pub : Bool)
    (hauth : pub = false → t.user = CKU_USER)
    (hmem : h ∈ (if pub then t.tokenObjList else t.tokenPrivObjList).map
      P11Object.handle)
    (hnd : ((if pub then t.tokenObjList else t.tokenPrivObjList).map
      P11Object.handle).Nodup) :
    (removeObjectLeavingAttributes t h pub).1 = (CKR_OK : Int) ∧
    (removeObjectLeavingAttributes t h pub).2.numberOfTokenObjects =
      ulongDec t.numberOfTokenObjects ∧
    (removeObjectLeavingAttributes t h pub).2.numberOfPrivateTokenObjects =
      t.numberOfPrivateTokenObjects ∧
    ∀ o ∈ (if pub then (removeObjectLeavingAttributes t h pub).2.tokenObjList
           else (removeObjectLeavingAttributes t h pub).2.tokenPrivObjList),
      o.handle ≠ h := by
  obtain ⟨n, o, hscan, -, -⟩ := findObjectScan_found hmem 0
  have hf : findObject t h none pub = ((n : Int), some o) := by
    cases pub
    · rw [findObject, if_neg (by simp [hauth rfl])]
      simpa using hscan
    · rw [findObject, if_neg (by simp)]
      simpa using hscan
  rw [removeObjectLeavingAttributes_found hf]
  cases pub
  · refine ⟨rfl, rfl, rfl, ?_⟩
    by_cases hn : 0 < n
    · simpa [hn] using removeFirstByHandle_no_handle (by simpa using hnd)
    · simp [hn]
  · refine ⟨rfl, rfl, rfl, ?_⟩
    by_cases hn : 0 < n
    · simpa [hn] using removeFirstByHandle_no_handle (by simpa using hnd)
    · simp [hn]

/-- C6 witness: removing the only private object of a token whose public
count is 3 leaves the private count at 1 - untouched - while the public
count drops to 2. -/
theorem removeObjectLeavingAttributes_counts_witness :
    (removeObjectLeavingAttributes
      ⟨1, 6, [], [⟨5, [], 0⟩], 3, 1, 0, false⟩ 5 false).1 = (CKR_OK : Int) ∧
    (removeObjectLeavingAttributes
      ⟨1, 6, [], [⟨5, [], 0⟩], 3, 1, 0, false⟩ 5 false).2.numberOfTokenObjects
      = ulongDec 3 ∧
    (removeObjectLeavingAttributes
      ⟨1, 6, [], [⟨5, [], 0⟩], 3, 1, 0,
        false⟩ 5 false).2.numberOfPrivateTokenObjects = 1 := by
  have hw := removeObjectLeavingAttributes_counts
    ⟨1, 6, [], [⟨5, [], 0⟩], 3, 1, 0, false⟩ 5 false
    (fun _ => rfl) (by decide) (by decide)
  exact ⟨hw.1, hw.2.1, hw.2.2.1⟩
